import Mathlib

/-!
Shallow embedding of the product CRUD service: a products controller
(getProducts, getProductById, createProduct, updateProduct, deleteProduct)
over a mongoose-style document store whose schema requires non-empty
name/brand/category, a price that is required and at least 0, and an
inStock boolean defaulting to true.

JavaScript payload fields are modelled by JsVal (undefined / null / value);
the store is a list of products plus a counter from which fresh 24-hex-char
object ids are generated.  Each handler takes an extra Option String
argument modelling an infrastructure failure thrown by the store call
(None means the store call itself runs); the try/catch of every handler
turns any thrown error into a 500 response.  Handlers also report whether
the store was reached, so that claims of the form "returns 400 before
touching the Store" can be stated.
-/

namespace ProductApi

/-- A JavaScript value of type α as it appears in a request payload:
absent (undefined), null, or an actual value. -/
inductive JsVal (α : Type) where
  | undef : JsVal α
  | null : JsVal α
  | val : α → JsVal α
deriving DecidableEq

/-- JavaScript truthiness of a string-valued payload field, as used by the
handler checks such as `!name`: undefined, null and the empty string are
falsy, every other string is truthy. -/
def truthy : JsVal String → Bool
  | .val s => decide (s ≠ "")
  | _ => false

/-- A persisted product document.  `inStock` is `none` when the stored
value is null and `some b` when it is the boolean `b`. -/
structure Product where
  id : String
  name : String
  brand : String
  category : String
  price : Int
  inStock : Option Bool
deriving DecidableEq

/-- An equality filter for the list operation: each supplied field must
match the corresponding product field exactly. -/
structure Filter where
  name : Option String
  brand : Option String
  category : Option String
  price : Option Int
  inStock : Option Bool
deriving DecidableEq

/-- The filter with no criteria (an empty query string). -/
def Filter.empty : Filter := ⟨none, none, none, none, none⟩

/-- Whether a product matches every supplied filter field (AND semantics).
A filter on `inStock` matches only documents whose stored value is that
boolean. -/
def Filter.matches (f : Filter) (p : Product) : Bool :=
  (match f.name with | none => true | some v => p.name == v) &&
  (match f.brand with | none => true | some v => p.brand == v) &&
  (match f.category with | none => true | some v => p.category == v) &&
  (match f.price with | none => true | some v => p.price == v) &&
  (match f.inStock with | none => true | some v => p.inStock == some v)

/-- The document store: the product collection plus the counter from which
the next object id is generated. -/
structure StoreState where
  products : List Product
  nextId : Nat
deriving DecidableEq

/-- The hexadecimal digit character for `n` (meaningful for `n < 16`). -/
def hexDigit (n : Nat) : Char :=
  if n < 10 then Char.ofNat (48 + n) else Char.ofNat (87 + n)

/-- The little-endian fixed-width base-16 digit string of `n`, `k` digits
long. -/
def hexChars : Nat → Nat → List Char
  | 0, _ => []
  | k + 1, n => hexDigit (n % 16) :: hexChars k (n / 16)

/-- The object id assigned to the `n`-th created document: a 24-character
hexadecimal string. -/
def genId (n : Nat) : String := String.mk (hexChars 24 n)

/-- Whether a character is a hexadecimal digit. -/
def isHexChar (c : Char) : Bool :=
  (decide ('0' ≤ c) && decide (c ≤ '9')) ||
  (decide ('a' ≤ c) && decide (c ≤ 'f')) ||
  (decide ('A' ≤ c) && decide (c ≤ 'F'))

/-- mongoose.isValidObjectId on a string: a 24-character hexadecimal
string, or any 12-character string. -/
def isValidObjectId (s : String) : Bool :=
  (s.data.length == 24 && s.data.all isHexChar) || s.data.length == 12

/-- Store contract find: all products matching every supplied filter. -/
def storeFind (f : Filter) (s : StoreState) : List Product :=
  s.products.filter (fun p => f.matches p)

/-- Store contract findById: the document with the given id, if any. -/
def storeFindById (id : String) (s : StoreState) : Option Product :=
  s.products.find? (fun p => p.id == id)

/-- A payload for the create operation: the destructured
name/brand/category/price/inStock fields of the request body. -/
structure CreatePayload where
  name : JsVal String
  brand : JsVal String
  category : JsVal String
  price : JsVal Int
  inStock : JsVal Bool
deriving DecidableEq

/-- Schema validation of a full document at insert, in schema order
(productSchema): name/brand/category are required non-empty strings,
price is required and must be at least 0.  Returns the message of the
first failing validator, or none when the document is valid. -/
def validateCreateDoc (b : CreatePayload) : Option String :=
  if !truthy b.name then some "Name Required"
  else if !truthy b.brand then some "Brand Required"
  else if !truthy b.category then some "Category Required"
  else
    match b.price with
    | .undef => some "Price Required"
    | .null => some "Price Required"
    | .val v => if v < 0 then some "Price cannot be negative" else none

/-- The stored inStock value for a creation payload: the schema default
`true` applies when the field is absent; null is stored as null. -/
def applyInStockDefault : JsVal Bool → Option Bool
  | .undef => some true
  | .null => none
  | .val b => some b

/-- The string carried by a payload field, with a default for the
non-value cases (only reached on fields that passed validation). -/
def jsStrOr (v : JsVal String) (d : String) : String :=
  match v with
  | .val s => s
  | _ => d

/-- The document built from a creation payload: fresh id from the store
counter, the payload's field values, the inStock default applied. -/
def insertedProduct (b : CreatePayload) (s : StoreState) : Product :=
  ⟨genId s.nextId, jsStrOr b.name "", jsStrOr b.brand "",
    jsStrOr b.category "",
    (match b.price with | .val v => v | _ => 0),
    applyInStockDefault b.inStock⟩

/-- Store contract insert (Product.create): validate the document against
the schema; on success assign a fresh id, apply the inStock default and
append the document.  A validation failure is a thrown error. -/
def storeInsert (b : CreatePayload) (s : StoreState) :
    Except String (Product × StoreState) :=
  match validateCreateDoc b with
  | some e => .error e
  | none =>
    .ok (insertedProduct b s,
      ⟨s.products ++ [insertedProduct b s], s.nextId + 1⟩)

/-- A payload for the update operation; a field that is `undef` is absent
from the request body and left untouched. -/
structure UpdatePayload where
  name : JsVal String
  brand : JsVal String
  category : JsVal String
  price : JsVal Int
  inStock : JsVal Bool
deriving DecidableEq

/-- Update-validator acceptance for a required string path: an absent
field is not validated; setting null or the empty string violates the
required validator. -/
def strUpdateOk : JsVal String → Bool
  | .undef => true
  | .null => false
  | .val s => decide (s ≠ "")

/-- Update validators (runValidators: true): only the paths present in
the update are validated, against the same schema constraints as at
insert. -/
def validateUpdateDoc (u : UpdatePayload) : Option String :=
  if !strUpdateOk u.name then some "Name Required"
  else if !strUpdateOk u.brand then some "Brand Required"
  else if !strUpdateOk u.category then some "Category Required"
  else
    match u.price with
    | .undef => none
    | .null => some "Price Required"
    | .val v => if v < 0 then some "Price cannot be negative" else none

/-- Partial overwrite of a product by an update payload: fields absent
from the payload keep their prior value; the id is never touched. -/
def applyUpdate (p : Product) (u : UpdatePayload) : Product :=
  ⟨p.id,
    (match u.name with | .val s => s | _ => p.name),
    (match u.brand with | .val s => s | _ => p.brand),
    (match u.category with | .val s => s | _ => p.category),
    (match u.price with | .val v => v | _ => p.price),
    (match u.inStock with
      | .undef => p.inStock
      | .null => none
      | .val b => some b)⟩

/-- Store contract updateById (findByIdAndUpdate with runValidators and
new: true): update validators run before the query, so a validation
failure is thrown even for a nonexistent id; otherwise the matching
document, if any, is overwritten and the post-update document returned. -/
def storeUpdateById (id : String) (u : UpdatePayload) (s : StoreState) :
    Except String (Option (Product × StoreState)) :=
  match validateUpdateDoc u with
  | some e => .error e
  | none =>
    match s.products.find? (fun p => p.id == id) with
    | none => .ok none
    | some p =>
      .ok (some (applyUpdate p u,
        ⟨s.products.map (fun q => if q.id == id then applyUpdate q u else q),
          s.nextId⟩))

/-- Store contract deleteById (findByIdAndDelete): remove the document
with the given id, returning it, or report that none matched. -/
def storeDeleteById (id : String) (s : StoreState) :
    Option (Product × StoreState) :=
  match s.products.find? (fun p => p.id == id) with
  | none => none
  | some p => some (p, ⟨s.products.eraseP (fun q => q.id == id), s.nextId⟩)

/-- A JSON response body: a bare message, a message with a stringified
error, the product list of a successful list, the product of a successful
fetch, or a message together with a product. -/
inductive RespBody where
  | msg : String → RespBody
  | msgErr : String → String → RespBody
  | prods : List Product → RespBody
  | prod : Product → RespBody
  | msgProd : String → Product → RespBody
deriving DecidableEq

/-- Whether a response body is a JSON object carrying a message field. -/
def hasMessage : RespBody → Bool
  | .msg _ => true
  | .msgErr _ _ => true
  | .msgProd _ _ => true
  | .prods _ => false
  | .prod _ => false

/-- Whether a response body is bare product data (no message field). -/
def isDataBody : RespBody → Bool
  | .prods _ => true
  | .prod _ => true
  | _ => false

/-- The outcome of one handler invocation: HTTP status, JSON body, the
store state afterwards, and whether the store call was reached. -/
structure HandlerOut where
  status : Nat
  body : RespBody
  store : StoreState
  accessed : Bool
deriving DecidableEq

/-- GET /products: list with optional equality filters.  An empty result
is reported as 404 "No products found"; otherwise the matching products
are returned with 200. -/
def getProducts (f : Filter) (crash : Option String) (s : StoreState) :
    HandlerOut :=
  match crash with
  | some e => ⟨500, .msgErr "Server error" e, s, true⟩
  | none =>
    let ps := storeFind f s
    if ps.isEmpty then ⟨404, .msg "No products found", s, true⟩
    else ⟨200, .prods ps, s, true⟩

/-- GET /products/:id: reject syntactically invalid ids with 400 before
the store is queried; otherwise fetch by id. -/
def getProductById (id : String) (crash : Option String) (s : StoreState) :
    HandlerOut :=
  if !isValidObjectId id then ⟨400, .msg "Invalid product ID", s, false⟩
  else
    match crash with
    | some e => ⟨500, .msgErr "Server error" e, s, true⟩
    | none =>
      match storeFindById id s with
      | none => ⟨404, .msg "Product not found", s, true⟩
      | some p => ⟨200, .prod p, s, true⟩

/-- POST /products: a missing body or a falsy name/brand/category or a
price strictly equal to undefined is a 400 before the store is touched;
otherwise Product.create is called and any thrown error becomes a 500. -/
def createProduct (body : Option CreatePayload) (crash : Option String)
    (s : StoreState) : HandlerOut :=
  match body with
  | none => ⟨400, .msg "Product data is required", s, false⟩
  | some b =>
    if !truthy b.name || !truthy b.brand || !truthy b.category ||
        b.price == JsVal.undef then
      ⟨400, .msg "Name, brand, category, and price are required", s, false⟩
    else
      match crash with
      | some e => ⟨500, .msgErr "Server error" e, s, true⟩
      | none =>
        match storeInsert b s with
        | .error e => ⟨500, .msgErr "Server error" e, s, true⟩
        | .ok (p, s2) =>
          ⟨201, .msgProd "Product created successfully" p, s2, true⟩

/-- PUT /products/:id: an empty id is a 400 "Id Parameter Missing", an
invalid id a 400 "Invalid product ID", both before the store; otherwise
findByIdAndUpdate runs with validators and any thrown error becomes a
500. -/
def updateProduct (id : String) (u : UpdatePayload) (crash : Option String)
    (s : StoreState) : HandlerOut :=
  if id = "" then ⟨400, .msg "Id Parameter Missing", s, false⟩
  else if !isValidObjectId id then ⟨400, .msg "Invalid product ID", s, false⟩
  else
    match crash with
    | some e => ⟨500, .msgErr "Server error" e, s, true⟩
    | none =>
      match storeUpdateById id u s with
      | .error e => ⟨500, .msgErr "Server error" e, s, true⟩
      | .ok none => ⟨404, .msg "Product not found", s, true⟩
      | .ok (some (p2, s2)) =>
        ⟨200, .msgProd "Product updated successfully" p2, s2, true⟩

/-- DELETE /products/:id: the same id checks as update, then
findByIdAndDelete. -/
def deleteProduct (id : String) (crash : Option String) (s : StoreState) :
    HandlerOut :=
  if id = "" then ⟨400, .msg "Id Parameter Missing", s, false⟩
  else if !isValidObjectId id then ⟨400, .msg "Invalid product ID", s, false⟩
  else
    match crash with
    | some e => ⟨500, .msgErr "Server error" e, s, true⟩
    | none =>
      match storeDeleteById id s with
      | none => ⟨404, .msg "Product not found", s, true⟩
      | some (_, s2) => ⟨200, .msg "Product deleted successfully", s2, true⟩

/-- Well-formedness of a store: the id counter has not exhausted the
24-digit space and every stored id was generated by some earlier counter
value (in particular ids are pairwise distinct and the next id is fresh). -/
def StoreState.wf (s : StoreState) : Prop :=
  s.nextId < 16 ^ 24 ∧ ∀ p ∈ s.products, ∃ k, k < s.nextId ∧ p.id = genId k

/-! Helper lemmas about id generation and list primitives. -/

theorem hexChars_length (k n : Nat) : (hexChars k n).length = k := by
  induction k generalizing n with
  | zero => rfl
  | succ k ih => simp [hexChars, ih]

theorem hexDigit_isHex {m : Nat} (h : m < 16) : isHexChar (hexDigit m) = true := by
  have H : ∀ i : Fin 16, isHexChar (hexDigit i.val) = true := by decide
  exact H ⟨m, h⟩

theorem hexChars_all_hex (k n : Nat) :
    ∀ c ∈ hexChars k n, isHexChar c = true := by
  induction k generalizing n with
  | zero => intro c hc; simp [hexChars] at hc
  | succ k ih =>
    intro c hc
    simp only [hexChars, List.mem_cons] at hc
    rcases hc with h | h
    · subst h; exact hexDigit_isHex (Nat.mod_lt _ (by norm_num))
    · exact ih _ c h

theorem hexDigit_inj {a b : Nat} (ha : a < 16) (hb : b < 16)
    (h : hexDigit a = hexDigit b) : a = b := by
  have H : ∀ i j : Fin 16, hexDigit i.val = hexDigit j.val → i = j := by decide
  have := H ⟨a, ha⟩ ⟨b, hb⟩ h
  exact congrArg Fin.val this

theorem hexChars_inj (k : Nat) :
    ∀ n m : Nat, n < 16 ^ k → m < 16 ^ k → hexChars k n = hexChars k m → n = m := by
  induction k with
  | zero =>
    intro n m hn hm _
    simp only [pow_zero, Nat.lt_one_iff] at hn hm
    omega
  | succ k ih =>
    intro n m hn hm h
    simp only [hexChars, List.cons.injEq] at h
    have h1 : n % 16 = m % 16 :=
      hexDigit_inj (Nat.mod_lt _ (by norm_num)) (Nat.mod_lt _ (by norm_num)) h.1
    have hn2 : n / 16 < 16 ^ k := by
      rw [Nat.div_lt_iff_lt_mul (by norm_num)]
      calc n < 16 ^ (k + 1) := hn
        _ = 16 ^ k * 16 := by ring
    have hm2 : m / 16 < 16 ^ k := by
      rw [Nat.div_lt_iff_lt_mul (by norm_num)]
      calc m < 16 ^ (k + 1) := hm
        _ = 16 ^ k * 16 := by ring
    have h2 : n / 16 = m / 16 := ih _ _ hn2 hm2 h.2
    have e1 := Nat.div_add_mod n 16
    have e2 := Nat.div_add_mod m 16
    omega

theorem genId_inj {a b : Nat} (ha : a < 16 ^ 24) (hb : b < 16 ^ 24)
    (h : genId a = genId b) : a = b := by
  have h2 : hexChars 24 a = hexChars 24 b := congrArg String.data h
  exact hexChars_inj 24 a b ha hb h2

theorem genId_valid (n : Nat) : isValidObjectId (genId n) = true := by
  simp only [isValidObjectId, genId, Bool.or_eq_true, Bool.and_eq_true]
  left
  constructor
  · simp [hexChars_length]
  · rw [List.all_eq_true]
    intro c hc
    exact hexChars_all_hex 24 n c hc

theorem genId_ne_empty (n : Nat) : genId n ≠ "" := by
  intro h
  have h2 : hexChars 24 n = "".data := congrArg String.data h
  have : (hexChars 24 n).length = ("".data : List Char).length :=
    congrArg List.length h2
  simp [hexChars_length] at this

theorem find?_append_of_none {α : Type} {p : α → Bool} {l1 l2 : List α}
    (h : ∀ x ∈ l1, p x = false) :
    List.find? p (l1 ++ l2) = List.find? p l2 := by
  induction l1 with
  | nil => rfl
  | cons a t ih =>
    have ha : p a = false := h a (List.mem_cons_self a t)
    simp only [List.cons_append, List.find?, ha]
    exact ih fun x hx => h x (List.mem_cons_of_mem a hx)

theorem find?_eq_none_of_all {α : Type} {p : α → Bool} {l : List α}
    (h : ∀ x ∈ l, p x = false) : List.find? p l = none := by
  induction l with
  | nil => rfl
  | cons a t ih =>
    have ha : p a = false := h a (List.mem_cons_self a t)
    simp only [List.find?, ha]
    exact ih fun x hx => h x (List.mem_cons_of_mem a hx)

theorem eraseP_append_of_none {α : Type} {p : α → Bool} {l1 l2 : List α}
    (h : ∀ x ∈ l1, p x = false) :
    List.eraseP p (l1 ++ l2) = l1 ++ List.eraseP p l2 := by
  induction l1 with
  | nil => rfl
  | cons a t ih =>
    have ha : p a = false := h a (List.mem_cons_self a t)
    simp only [List.cons_append, List.eraseP_cons, ha, cond_false, List.cons.injEq,
      true_and]
    exact ih fun x hx => h x (List.mem_cons_of_mem a hx)

/-- In a well-formed store no stored product carries the id that the next
insert will assign. -/
theorem wf_fresh {s : StoreState} (hwf : s.wf) :
    ∀ p ∈ s.products, (p.id == genId s.nextId) = false := by
  intro p hp
  obtain ⟨k, hk, hid⟩ := hwf.2 p hp
  simp only [beq_eq_false_iff_ne, ne_eq, hid]
  intro h
  exact absurd (genId_inj (lt_trans hk hwf.1) hwf.1 h) (Nat.ne_of_lt hk)

/-! Concrete fixtures used by witnesses and counterexamples. -/

/-- The empty store. -/
def store0 : StoreState := ⟨[], 0⟩

/-- A sample stored product with the first generated id. -/
def prod0 : Product := ⟨genId 0, "Pen", "Acme", "Stationery", 5, some true⟩

/-- A store holding one product. -/
def store1 : StoreState := ⟨[prod0], 1⟩

/-- A fully valid creation payload with positive price. -/
def pay1 : CreatePayload :=
  ⟨.val "Pen", .val "Acme", .val "Stationery", .val 2, .undef⟩

/-- A creation payload with price zero, otherwise valid. -/
def pay0 : CreatePayload :=
  ⟨.val "Pen", .val "Acme", .val "Stationery", .val 0, .undef⟩

/-- A creation payload with negative price, otherwise valid. -/
def payNeg : CreatePayload :=
  ⟨.val "Pen", .val "Acme", .val "Stationery", .val (-1), .undef⟩

/-- A creation payload with null price, otherwise valid. -/
def payNull : CreatePayload :=
  ⟨.val "Pen", .val "Acme", .val "Stationery", .null, .undef⟩

/-- The empty update payload (an empty request body). -/
def updEmpty : UpdatePayload := ⟨.undef, .undef, .undef, .undef, .undef⟩

/-- An update payload setting only the price. -/
def updPrice : UpdatePayload := ⟨.undef, .undef, .undef, .val 7, .undef⟩

/-- An update payload setting the name to the empty string, which the
schema's required validator rejects at write time. -/
def updBadName : UpdatePayload := ⟨.val "", .undef, .undef, .undef, .undef⟩

/-- The handler rejection condition of createProduct on a present body. -/
def createRejects (b : CreatePayload) : Bool :=
  !truthy b.name || !truthy b.brand || !truthy b.category ||
    b.price == JsVal.undef

theorem createRejects_iff (b : CreatePayload) :
    createRejects b = true ↔
      (truthy b.name = false ∨ truthy b.brand = false ∨
        truthy b.category = false ∨ b.price = JsVal.undef) := by
  simp [createRejects, Bool.or_eq_true, Bool.not_eq_true', or_assoc]

/-- When the handler checks pass, the store insert is reached and the
response is never a 400 (it is 201 or 500). -/
theorem create_reaches_store {b : CreatePayload} (crash : Option String)
    (s : StoreState) (h : createRejects b = false) :
    (createProduct (some b) crash s).accessed = true ∧
      (createProduct (some b) crash s).status ≠ 400 := by
  have h2 : (!truthy b.name || !truthy b.brand || !truthy b.category ||
      b.price == JsVal.undef) = false := h
  cases crash with
  | some e => simp [createProduct, h2]
  | none =>
    cases hi : storeInsert b s with
    | error e => simp [createProduct, h2, hi]
    | ok ps =>
      cases ps with
      | mk p s2 => simp [createProduct, h2, hi]

/-- Claim C1: createProduct returns 400 without calling the Store exactly
when the payload is absent, or name/brand/category is falsy, or price is
strictly undefined; a payload with price 0 and non-empty required fields
passes the handler validation and reaches the store insert. -/
theorem claim1_create_badRequest_iff (body : Option CreatePayload)
    (crash : Option String) (s : StoreState) :
    (((createProduct body crash s).status = 400 ∧
        (createProduct body crash s).accessed = false) ↔
      (body = none ∨ ∃ b, body = some b ∧
        (truthy b.name = false ∨ truthy b.brand = false ∨
          truthy b.category = false ∨ b.price = JsVal.undef))) ∧
    (∀ b, body = some b → truthy b.name = true → truthy b.brand = true →
      truthy b.category = true → b.price = JsVal.val 0 →
      (createProduct body crash s).accessed = true) := by
  cases body with
  | none =>
    refine ⟨⟨fun _ => Or.inl rfl, fun _ => ⟨rfl, rfl⟩⟩, ?_⟩
    intro b hb
    exact absurd hb (by simp)
  | some b =>
    refine ⟨?_, ?_⟩
    · by_cases h : createRejects b = true
      · refine ⟨fun _ => Or.inr ⟨b, rfl, (createRejects_iff b).mp h⟩, fun _ => ?_⟩
        have h2 : (!truthy b.name || !truthy b.brand || !truthy b.category ||
            b.price == JsVal.undef) = true := h
        simp [createProduct, h2]
      · have hf : createRejects b = false := Bool.eq_false_iff.mpr h
        obtain ⟨hacc, hst⟩ := create_reaches_store crash s hf
        refine ⟨fun hc => absurd hc.1 hst, fun hr => ?_⟩
        rcases hr with h0 | ⟨b2, hb2, hdis⟩
        · exact absurd h0 (by simp)
        · have : b = b2 := by injection hb2
          subst this
          exact absurd ((createRejects_iff b).mpr hdis) h
    · intro b2 hb2 hn hbr hc hp
      have : b = b2 := by injection hb2
      subst this
      have hf : createRejects b = false := by
        simp [createRejects, hn, hbr, hc, hp]
      exact (create_reaches_store crash s hf).1

/-- Witness for claim C1 at a concrete input: the price-zero payload
reaches the store insert. -/
theorem claim1_witness :
    (createProduct (some pay0) none store0).accessed = true :=
  (claim1_create_badRequest_iff (some pay0) none store0).2 pay0 rfl
    (by decide) (by decide) (by decide) rfl

/-- A truthy string field is an actual non-empty string, so rebuilding a
JsVal from the carried string recovers the field. -/
theorem truthy_val {x : JsVal String} (h : truthy x = true) :
    JsVal.val (jsStrOr x "") = x := by
  cases x <;> simp [truthy, jsStrOr] at h ⊢

/-- On a payload passing both the handler checks and the schema
validation, createProduct answers 201 and appends the inserted document. -/
theorem create_success {s : StoreState} {b : CreatePayload} {v : Int}
    (hn : truthy b.name = true) (hb : truthy b.brand = true)
    (hc : truthy b.category = true) (hp : b.price = JsVal.val v)
    (hv : 0 ≤ v) :
    createProduct (some b) none s =
      ⟨201, RespBody.msgProd "Product created successfully" (insertedProduct b s),
        ⟨s.products ++ [insertedProduct b s], s.nextId + 1⟩, true⟩ := by
  have hval : validateCreateDoc b = none := by
    simp [validateCreateDoc, hn, hb, hc, hp, not_lt.mpr hv]
  have hrej : (!truthy b.name || !truthy b.brand || !truthy b.category ||
      b.price == JsVal.undef) = false := by
    simp [hn, hb, hc, hp]
  have hins : storeInsert b s = Except.ok (insertedProduct b s,
      ⟨s.products ++ [insertedProduct b s], s.nextId + 1⟩) := by
    simp [storeInsert, hval]
  simp [createProduct, hrej, hins]

/-- Looking up the id just assigned by an insert into a well-formed store
finds exactly the inserted document. -/
theorem find?_insert_fresh {s : StoreState} (hwf : s.wf) (b : CreatePayload) :
    (s.products ++ [insertedProduct b s]).find?
      (fun q => q.id == genId s.nextId) = some (insertedProduct b s) := by
  rw [find?_append_of_none (wf_fresh hwf)]
  simp [List.find?, insertedProduct]

/-- Erasing the id just assigned by an insert into a well-formed store
removes exactly the inserted document. -/
theorem eraseP_insert_fresh {s : StoreState} (hwf : s.wf) (b : CreatePayload) :
    (s.products ++ [insertedProduct b s]).eraseP
      (fun q => q.id == genId s.nextId) = s.products := by
  rw [eraseP_append_of_none (wf_fresh hwf)]
  simp [List.eraseP, insertedProduct]

/-- Claim C2: a valid creation payload yields 201 with the persisted
product whose fields equal the input, whose id is fresh and non-empty,
whose inStock defaults to true when absent, and a subsequent fetch by the
assigned id returns the same product with 200. -/
theorem claim2_create_roundtrip (s : StoreState) (b : CreatePayload) (v : Int)
    (hwf : s.wf) (hn : truthy b.name = true) (hb : truthy b.brand = true)
    (hc : truthy b.category = true) (hp : b.price = JsVal.val v)
    (hv : 0 ≤ v) :
    ∃ p : Product,
      (createProduct (some b) none s).status = 201 ∧
      (createProduct (some b) none s).body =
        RespBody.msgProd "Product created successfully" p ∧
      JsVal.val p.name = b.name ∧ JsVal.val p.brand = b.brand ∧
      JsVal.val p.category = b.category ∧ p.price = v ∧ p.id ≠ "" ∧
      (b.inStock = JsVal.undef → p.inStock = some true) ∧
      (getProductById p.id none
        (createProduct (some b) none s).store).status = 200 ∧
      (getProductById p.id none
        (createProduct (some b) none s).store).body =
        RespBody.prod p := by
  have hcp : createProduct (some b) none s =
      ⟨201, RespBody.msgProd "Product created successfully" (insertedProduct b s),
        ⟨s.products ++ [insertedProduct b s], s.nextId + 1⟩, true⟩ :=
    create_success hn hb hc hp hv
  have hid : (insertedProduct b s).id = genId s.nextId := rfl
  have hidv : isValidObjectId (insertedProduct b s).id = true := genId_valid s.nextId
  have hfind : storeFindById (insertedProduct b s).id
      ⟨s.products ++ [insertedProduct b s], s.nextId + 1⟩ =
      some (insertedProduct b s) := by
    unfold storeFindById
    simp only [hid]
    exact find?_insert_fresh hwf b
  refine ⟨insertedProduct b s, ?_, ?_, ?_, ?_, ?_, ?_, ?_, ?_, ?_, ?_⟩
  · rw [hcp]
  · rw [hcp]
  · exact truthy_val hn
  · exact truthy_val hb
  · exact truthy_val hc
  · simp [insertedProduct, hp]
  · rw [hid]; exact genId_ne_empty _
  · intro h
    simp [insertedProduct, applyInStockDefault, h]
  · rw [hcp]
    simp [getProductById, hidv, hfind]
  · rw [hcp]
    simp [getProductById, hidv, hfind]

/-- Witness for claim C2: creating from the sample payload in the empty
store. -/
theorem claim2_witness :
    ∃ p : Product,
      (createProduct (some pay1) none store0).status = 201 ∧
      (createProduct (some pay1) none store0).body =
        RespBody.msgProd "Product created successfully" p ∧
      JsVal.val p.name = pay1.name ∧ JsVal.val p.brand = pay1.brand ∧
      JsVal.val p.category = pay1.category ∧ p.price = 2 ∧ p.id ≠ "" ∧
      (pay1.inStock = JsVal.undef → p.inStock = some true) ∧
      (getProductById p.id none
        (createProduct (some pay1) none store0).store).status = 200 ∧
      (getProductById p.id none
        (createProduct (some pay1) none store0).store).body =
        RespBody.prod p :=
  claim2_create_roundtrip store0 pay1 2
    ⟨by decide, by simp [store0]⟩ (by decide) (by decide) (by decide) rfl
    (by decide)

/-- Counterexample to claim C3 as stated: the empty string fails the id
format check, and updateProduct does answer 400, but with the message
"Id Parameter Missing" instead of the claimed "Invalid product ID". -/
theorem claim3_counterexample :
    isValidObjectId "" = false ∧
    (updateProduct "" updEmpty none store0).status = 400 ∧
    (updateProduct "" updEmpty none store0).body =
      RespBody.msg "Id Parameter Missing" ∧
    RespBody.msg "Id Parameter Missing" ≠ RespBody.msg "Invalid product ID" := by
  decide

/-- Claim C3 (amended): every id failing the format check is answered 400
by getProductById, updateProduct and deleteProduct without any store
access; the message is "Invalid product ID", except that updateProduct
and deleteProduct answer "Id Parameter Missing" when the id is the empty
string. -/
theorem claim3_invalid_id_rejected (id : String) (s : StoreState)
    (crash : Option String) (u : UpdatePayload)
    (hid : isValidObjectId id = false) :
    (getProductById id crash s).status = 400 ∧
    (getProductById id crash s).accessed = false ∧
    (getProductById id crash s).body = RespBody.msg "Invalid product ID" ∧
    (updateProduct id u crash s).status = 400 ∧
    (updateProduct id u crash s).accessed = false ∧
    (deleteProduct id crash s).status = 400 ∧
    (deleteProduct id crash s).accessed = false ∧
    (id ≠ "" →
      (updateProduct id u crash s).body = RespBody.msg "Invalid product ID" ∧
      (deleteProduct id crash s).body = RespBody.msg "Invalid product ID") ∧
    (id = "" →
      (updateProduct id u crash s).body = RespBody.msg "Id Parameter Missing" ∧
      (deleteProduct id crash s).body = RespBody.msg "Id Parameter Missing") := by
  by_cases h0 : id = ""
  · subst h0
    refine ⟨?_, ?_, ?_, ?_, ?_, ?_, ?_, ?_, ?_⟩ <;>
      simp [getProductById, updateProduct, deleteProduct, hid]
  · refine ⟨?_, ?_, ?_, ?_, ?_, ?_, ?_, ?_, ?_⟩ <;>
      simp [getProductById, updateProduct, deleteProduct, hid, h0]

/-- Witness for the amended claim C3 at a concrete malformed id. -/
theorem claim3_witness :
    (getProductById "xyz" none store0).body = RespBody.msg "Invalid product ID" ∧
    (updateProduct "xyz" updEmpty none store0).body =
      RespBody.msg "Invalid product ID" :=
  ⟨(claim3_invalid_id_rejected "xyz" store0 none updEmpty (by decide)).2.2.1,
    ((claim3_invalid_id_rejected "xyz" store0 none updEmpty
      (by decide)).2.2.2.2.2.2.2.1 (by decide)).1⟩

/-- Claim C4: a creation payload whose only defect is a negative price
passes the handler checks, reaches the store, is rejected by the schema's
minimum-price validator, surfaces as a 500 (not a 400), and persists
nothing. -/
theorem claim4_create_negative_price (s : StoreState) (b : CreatePayload)
    (v : Int) (hn : truthy b.name = true) (hb : truthy b.brand = true)
    (hc : truthy b.category = true) (hp : b.price = JsVal.val v)
    (hv : v < 0) :
    (createProduct (some b) none s).accessed = true ∧
    (createProduct (some b) none s).status = 500 ∧
    (createProduct (some b) none s).body =
      RespBody.msgErr "Server error" "Price cannot be negative" ∧
    (createProduct (some b) none s).store = s := by
  have hval : validateCreateDoc b = some "Price cannot be negative" := by
    simp [validateCreateDoc, hn, hb, hc, hp, hv]
  have hins : storeInsert b s = Except.error "Price cannot be negative" := by
    simp [storeInsert, hval]
  have hrej : (!truthy b.name || !truthy b.brand || !truthy b.category ||
      b.price == JsVal.undef) = false := by
    simp [hn, hb, hc, hp]
  simp [createProduct, hrej, hins]

/-- Witness for claim C4 at a concrete payload with price -1. -/
theorem claim4_witness :
    (createProduct (some payNeg) none store0).accessed = true ∧
    (createProduct (some payNeg) none store0).status = 500 ∧
    (createProduct (some payNeg) none store0).body =
      RespBody.msgErr "Server error" "Price cannot be negative" ∧
    (createProduct (some payNeg) none store0).store = store0 :=
  claim4_create_negative_price store0 payNeg (-1) (by decide) (by decide)
    (by decide) rfl (by decide)

/-- Claim C5: listing with no filters returns every stored product;
with filters it returns exactly the products matching all supplied
equality filters; the status is 200 when at least one product matches
and 404 with "No products found" when none does. -/
theorem claim5_list_filtering (f : Filter) (s : StoreState) :
    storeFind Filter.empty s = s.products ∧
    (∀ p, p ∈ storeFind f s ↔ p ∈ s.products ∧ f.matches p = true) ∧
    (getProducts f none s).status =
      (if storeFind f s = [] then 404 else 200) ∧
    (getProducts f none s).body =
      (if storeFind f s = [] then RespBody.msg "No products found"
        else RespBody.prods (storeFind f s)) := by
  refine ⟨?_, ?_, ?_, ?_⟩
  · exact List.filter_eq_self.mpr fun a _ => rfl
  · intro p
    simp [storeFind, List.mem_filter]
  · by_cases h : storeFind f s = [] <;> simp [getProducts, h]
  · by_cases h : storeFind f s = [] <;> simp [getProducts, h]

/-- An id passing the object-id format check is in particular non-empty. -/
theorem validId_ne_empty {id : String} (hid : isValidObjectId id = true) :
    id ≠ "" := by
  intro h
  rw [h] at hid
  exact absurd hid (by decide)

/-- Claim C6: updating an existing product with a payload that passes the
store-side validators answers 200 with the post-update product; the
overwrite changes exactly the supplied fields, every omitted field keeps
its prior value, and the id is untouched. -/
theorem claim6_update_frame (id : String) (u : UpdatePayload) (s : StoreState)
    (p : Product) (hid : isValidObjectId id = true)
    (hfind : storeFindById id s = some p)
    (hval : validateUpdateDoc u = none) :
    (updateProduct id u none s).status = 200 ∧
    (updateProduct id u none s).body =
      RespBody.msgProd "Product updated successfully" (applyUpdate p u) ∧
    (updateProduct id u none s).store.products =
      s.products.map (fun q => if q.id == id then applyUpdate q u else q) ∧
    (applyUpdate p u).id = p.id ∧
    (applyUpdate p u).name =
      (match u.name with | .val x => x | _ => p.name) ∧
    (applyUpdate p u).brand =
      (match u.brand with | .val x => x | _ => p.brand) ∧
    (applyUpdate p u).category =
      (match u.category with | .val x => x | _ => p.category) ∧
    (applyUpdate p u).price =
      (match u.price with | .val x => x | _ => p.price) ∧
    (applyUpdate p u).inStock =
      (match u.inStock with
        | .undef => p.inStock | .null => none | .val b => some b) := by
  have hne : id ≠ "" := validId_ne_empty hid
  have hupd : storeUpdateById id u s = Except.ok (some (applyUpdate p u,
      ⟨s.products.map (fun q => if q.id == id then applyUpdate q u else q),
        s.nextId⟩)) := by
    unfold storeUpdateById
    rw [hval]
    unfold storeFindById at hfind
    rw [hfind]
  have hcu : updateProduct id u none s =
      ⟨200, RespBody.msgProd "Product updated successfully" (applyUpdate p u),
        ⟨s.products.map (fun q => if q.id == id then applyUpdate q u else q),
          s.nextId⟩, true⟩ := by
    simp [updateProduct, hne, hid, hupd]
  exact ⟨by rw [hcu], by rw [hcu], by rw [hcu], rfl, rfl, rfl, rfl, rfl, rfl⟩

/-- Witness for claim C6: setting only the price of the stored sample
product. -/
theorem claim6_witness :
    (updateProduct (genId 0) updPrice none store1).status = 200 ∧
    (updateProduct (genId 0) updPrice none store1).body =
      RespBody.msgProd "Product updated successfully"
        (applyUpdate prod0 updPrice) :=
  ⟨(claim6_update_frame (genId 0) updPrice store1 prod0 (genId_valid 0)
      (by decide) (by decide)).1,
    (claim6_update_frame (genId 0) updPrice store1 prod0 (genId_valid 0)
      (by decide) (by decide)).2.1⟩

/-- Claim C7: for a well-formed id the update handler always reaches the
store call whatever the payload contains and never answers 400; a
validation failure raised during the write surfaces as a 500 carrying the
validator's message, and a payload passing validation on a nonexistent id
gives a 404. -/
theorem claim7_update_no_prevalidation (id : String) (u : UpdatePayload)
    (s : StoreState) (hid : isValidObjectId id = true) :
    (updateProduct id u none s).accessed = true ∧
    (updateProduct id u none s).status ≠ 400 ∧
    (∀ e, validateUpdateDoc u = some e →
      (updateProduct id u none s).status = 500 ∧
      (updateProduct id u none s).body = RespBody.msgErr "Server error" e) ∧
    (validateUpdateDoc u = none → storeFindById id s = none →
      (updateProduct id u none s).status = 404 ∧
      (updateProduct id u none s).body = RespBody.msg "Product not found") := by
  have hne : id ≠ "" := validId_ne_empty hid
  cases hv : validateUpdateDoc u with
  | some e0 =>
    have hupd : storeUpdateById id u s = Except.error e0 := by
      simp [storeUpdateById, hv]
    have hcu : updateProduct id u none s =
        ⟨500, RespBody.msgErr "Server error" e0, s, true⟩ := by
      simp [updateProduct, hne, hid, hupd]
    refine ⟨by rw [hcu], by simp [hcu], ?_, ?_⟩
    · intro e he
      have : e0 = e := by injection he
      subst this
      exact ⟨by rw [hcu], by rw [hcu]⟩
    · intro h
      exact absurd h (by simp)
  | none =>
    cases hf : s.products.find? (fun q => q.id == id) with
    | none =>
      have hupd : storeUpdateById id u s = Except.ok none := by
        simp [storeUpdateById, hv, hf]
      have hcu : updateProduct id u none s =
          ⟨404, RespBody.msg "Product not found", s, true⟩ := by
        simp [updateProduct, hne, hid, hupd]
      refine ⟨by rw [hcu], by simp [hcu], ?_, ?_⟩
      · intro e he
        exact absurd he (by simp)
      · intro _ _
        exact ⟨by rw [hcu], by rw [hcu]⟩
    | some p =>
      have hupd : storeUpdateById id u s = Except.ok (some (applyUpdate p u,
          ⟨s.products.map (fun q => if q.id == id then applyUpdate q u else q),
            s.nextId⟩)) := by
        simp [storeUpdateById, hv, hf]
      have hcu : updateProduct id u none s =
          ⟨200, RespBody.msgProd "Product updated successfully" (applyUpdate p u),
            ⟨s.products.map (fun q => if q.id == id then applyUpdate q u else q),
              s.nextId⟩, true⟩ := by
        simp [updateProduct, hne, hid, hupd]
      refine ⟨by rw [hcu], by simp [hcu], ?_, ?_⟩
      · intro e he
        exact absurd he (by simp)
      · intro _ hfind
        unfold storeFindById at hfind
        rw [hf] at hfind
        exact absurd hfind (by simp)

/-- Witness for claim C7: a payload setting the name to the empty string
is passed through to the store and the validator failure surfaces as a
500. -/
theorem claim7_witness :
    (updateProduct (genId 0) updBadName none store1).accessed = true ∧
    (updateProduct (genId 0) updBadName none store1).status = 500 ∧
    (updateProduct (genId 0) updBadName none store1).body =
      RespBody.msgErr "Server error" "Name Required" :=
  ⟨(claim7_update_no_prevalidation (genId 0) updBadName store1
      (genId_valid 0)).1,
    ((claim7_update_no_prevalidation (genId 0) updBadName store1
      (genId_valid 0)).2.2.1 "Name Required" (by decide)).1,
    ((claim7_update_no_prevalidation (genId 0) updBadName store1
      (genId_valid 0)).2.2.1 "Name Required" (by decide)).2⟩

/-- Claim C8: creating a product from a valid payload and then deleting
it by its assigned id answers 200 "Product deleted successfully", and a
subsequent fetch of that id answers 404 "Product not found". -/
theorem claim8_create_delete_get (s : StoreState) (b : CreatePayload)
    (v : Int) (hwf : s.wf) (hn : truthy b.name = true)
    (hb : truthy b.brand = true) (hc : truthy b.category = true)
    (hp : b.price = JsVal.val v) (hv : 0 ≤ v) :
    ∃ p : Product,
      (createProduct (some b) none s).body =
        RespBody.msgProd "Product created successfully" p ∧
      (deleteProduct p.id none (createProduct (some b) none s).store).status
        = 200 ∧
      (deleteProduct p.id none (createProduct (some b) none s).store).body
        = RespBody.msg "Product deleted successfully" ∧
      (getProductById p.id none
        (deleteProduct p.id none
          (createProduct (some b) none s).store).store).status = 404 ∧
      (getProductById p.id none
        (deleteProduct p.id none
          (createProduct (some b) none s).store).store).body =
        RespBody.msg "Product not found" := by
  have hcp : createProduct (some b) none s =
      ⟨201, RespBody.msgProd "Product created successfully" (insertedProduct b s),
        ⟨s.products ++ [insertedProduct b s], s.nextId + 1⟩, true⟩ :=
    create_success hn hb hc hp hv
  have hid : (insertedProduct b s).id = genId s.nextId := rfl
  have hne : (insertedProduct b s).id ≠ "" := genId_ne_empty s.nextId
  have hidv : isValidObjectId (insertedProduct b s).id = true :=
    genId_valid s.nextId
  have hdelStore : storeDeleteById (insertedProduct b s).id
      ⟨s.products ++ [insertedProduct b s], s.nextId + 1⟩ =
      some (insertedProduct b s, ⟨s.products, s.nextId + 1⟩) := by
    unfold storeDeleteById
    simp only [hid]
    rw [find?_insert_fresh hwf, eraseP_insert_fresh hwf]
  have hdel : deleteProduct (insertedProduct b s).id none
      ⟨s.products ++ [insertedProduct b s], s.nextId + 1⟩ =
      ⟨200, RespBody.msg "Product deleted successfully",
        ⟨s.products, s.nextId + 1⟩, true⟩ := by
    simp [deleteProduct, hne, hidv, hdelStore]
  have hfind : storeFindById (insertedProduct b s).id
      ⟨s.products, s.nextId + 1⟩ = none := by
    unfold storeFindById
    simp only [hid]
    exact find?_eq_none_of_all (wf_fresh hwf)
  have hget : getProductById (insertedProduct b s).id none
      ⟨s.products, s.nextId + 1⟩ =
      ⟨404, RespBody.msg "Product not found", ⟨s.products, s.nextId + 1⟩,
        true⟩ := by
    simp [getProductById, hidv, hfind]
  refine ⟨insertedProduct b s, ?_, ?_, ?_, ?_, ?_⟩
  · rw [hcp]
  · rw [hcp]
    show (deleteProduct (insertedProduct b s).id none
      ⟨s.products ++ [insertedProduct b s], s.nextId + 1⟩).status = 200
    rw [hdel]
  · rw [hcp]
    show (deleteProduct (insertedProduct b s).id none
      ⟨s.products ++ [insertedProduct b s], s.nextId + 1⟩).body = _
    rw [hdel]
  · rw [hcp]
    show (getProductById (insertedProduct b s).id none
      (deleteProduct (insertedProduct b s).id none
        ⟨s.products ++ [insertedProduct b s], s.nextId + 1⟩).store).status = 404
    rw [hdel]
    show (getProductById (insertedProduct b s).id none
      ⟨s.products, s.nextId + 1⟩).status = 404
    rw [hget]
  · rw [hcp]
    show (getProductById (insertedProduct b s).id none
      (deleteProduct (insertedProduct b s).id none
        ⟨s.products ++ [insertedProduct b s], s.nextId + 1⟩).store).body = _
    rw [hdel]
    show (getProductById (insertedProduct b s).id none
      ⟨s.products, s.nextId + 1⟩).body = _
    rw [hget]

/-- Witness for claim C8: create, delete, then fetch in the empty store. -/
theorem claim8_witness :
    ∃ p : Product,
      (createProduct (some pay1) none store0).body =
        RespBody.msgProd "Product created successfully" p ∧
      (deleteProduct p.id none (createProduct (some pay1) none store0).store).status
        = 200 ∧
      (deleteProduct p.id none (createProduct (some pay1) none store0).store).body
        = RespBody.msg "Product deleted successfully" ∧
      (getProductById p.id none
        (deleteProduct p.id none
          (createProduct (some pay1) none store0).store).store).status = 404 ∧
      (getProductById p.id none
        (deleteProduct p.id none
          (createProduct (some pay1) none store0).store).store).body =
        RespBody.msg "Product not found" :=
  claim8_create_delete_get store0 pay1 2 ⟨by decide, by simp [store0]⟩
    (by decide) (by decide) (by decide) rfl (by decide)

/-- Counterexample to claim C9 as stated: a successful list response is
the bare product array, a body with no message field, even though its
status is 200. -/
theorem claim9_counterexample :
    (getProducts Filter.empty none store1).status = 200 ∧
    hasMessage (getProducts Filter.empty none store1).body = false := by
  decide

/-- Claim C9 (amended): on every input and store outcome each handler
returns a response (nothing escapes the operation boundary), every
create/update/delete response carries a message, and a list or fetch
response either carries a message or is a 200 whose body is the bare
product data; store failures appear only as the stringified description
inside a message-bearing body. -/
theorem claim9_message_policy (f : Filter) (id : String)
    (body : Option CreatePayload) (u : UpdatePayload)
    (crash : Option String) (s : StoreState) :
    (hasMessage (getProducts f crash s).body = true ∨
      ((getProducts f crash s).status = 200 ∧
        isDataBody (getProducts f crash s).body = true)) ∧
    (hasMessage (getProductById id crash s).body = true ∨
      ((getProductById id crash s).status = 200 ∧
        isDataBody (getProductById id crash s).body = true)) ∧
    hasMessage (createProduct body crash s).body = true ∧
    hasMessage (updateProduct id u crash s).body = true ∧
    hasMessage (deleteProduct id crash s).body = true := by
  refine ⟨?_, ?_, ?_, ?_, ?_⟩
  · rcases crash with _ | e
    · by_cases h : (storeFind f s).isEmpty <;>
        simp [getProducts, h, hasMessage, isDataBody]
    · simp [getProducts, hasMessage]
  · by_cases hid : isValidObjectId id
    · rcases crash with _ | e
      · cases hf : storeFindById id s <;>
          simp [getProductById, hid, hf, hasMessage, isDataBody]
      · simp [getProductById, hid, hasMessage]
    · simp [getProductById, hid, hasMessage]
  · rcases body with _ | b
    · simp [createProduct, hasMessage]
    · by_cases hrej : (!truthy b.name || !truthy b.brand ||
        !truthy b.category || b.price == JsVal.undef) = true
      · simp [createProduct, hrej, hasMessage]
      · have hrej2 := Bool.eq_false_iff.mpr hrej
        rcases crash with _ | e
        · cases hi : storeInsert b s with
          | error e2 => simp [createProduct, hrej2, hi, hasMessage]
          | ok ps =>
            cases ps with
            | mk p s2 => simp [createProduct, hrej2, hi, hasMessage]
        · simp [createProduct, hrej2, hasMessage]
  · by_cases h0 : id = ""
    · simp [updateProduct, h0, hasMessage]
    · by_cases hid : isValidObjectId id
      · rcases crash with _ | e
        · cases hu : storeUpdateById id u s with
          | error e2 => simp [updateProduct, h0, hid, hu, hasMessage]
          | ok o =>
            cases o with
            | none => simp [updateProduct, h0, hid, hu, hasMessage]
            | some ps =>
              cases ps with
              | mk p s2 => simp [updateProduct, h0, hid, hu, hasMessage]
        · simp [updateProduct, h0, hid, hasMessage]
      · simp [updateProduct, h0, hid, hasMessage]
  · by_cases h0 : id = ""
    · simp [deleteProduct, h0, hasMessage]
    · by_cases hid : isValidObjectId id
      · rcases crash with _ | e
        · cases hd : storeDeleteById id s with
          | none => simp [deleteProduct, h0, hid, hd, hasMessage]
          | some ps =>
            cases ps with
            | mk p s2 => simp [deleteProduct, h0, hid, hd, hasMessage]
        · simp [deleteProduct, h0, hid, hasMessage]
      · simp [deleteProduct, h0, hid, hasMessage]

/-- Claim C10: a creation payload whose price is present but null passes
the handler's boundary check (which only rejects price strictly equal to
undefined), reaches the store, fails the schema's required validator
there, and surfaces as a 500 with nothing persisted. -/
theorem claim10_create_null_price (s : StoreState) (b : CreatePayload)
    (hn : truthy b.name = true) (hb : truthy b.brand = true)
    (hc : truthy b.category = true) (hp : b.price = JsVal.null) :
    (createProduct (some b) none s).accessed = true ∧
    (createProduct (some b) none s).status = 500 ∧
    (createProduct (some b) none s).body =
      RespBody.msgErr "Server error" "Price Required" ∧
    (createProduct (some b) none s).store = s := by
  have hval : validateCreateDoc b = some "Price Required" := by
    simp [validateCreateDoc, hn, hb, hc, hp]
  have hins : storeInsert b s = Except.error "Price Required" := by
    simp [storeInsert, hval]
  have hrej : (!truthy b.name || !truthy b.brand || !truthy b.category ||
      b.price == JsVal.undef) = false := by
    simp [hn, hb, hc, hp]
  simp [createProduct, hrej, hins]

/-- Witness for claim C10 at a concrete payload with null price. -/
theorem claim10_witness :
    (createProduct (some payNull) none store0).accessed = true ∧
    (createProduct (some payNull) none store0).status = 500 ∧
    (createProduct (some payNull) none store0).body =
      RespBody.msgErr "Server error" "Price Required" ∧
    (createProduct (some payNull) none store0).store = store0 :=
  claim10_create_null_price store0 payNull (by decide) (by decide)
    (by decide) rfl

end ProductApi
